import Mathlib

/-!
Shallow embedding of the price-watch notifier bot (`src/bot.py`).

The embedding covers the parts of the program the claims are about:

* `to_int_price` — price-string parsing (`bot.py`, `to_int_price`):
  `Decimal(str(x)).to_integral_value(ROUND_DOWN)`, i.e. truncation toward
  zero.  Python `Decimal` is modelled on its sign/digits/fraction forms
  (optional sign, decimal digits, optional single dot); inputs outside that
  grammar, and a `None` input, raise `ValueError` in the source and are
  modelled as `none`.
* `parse_chat_id` — destination parsing (`bot.py`, `parse_chat_id`).
  Python `int(...)` is modelled by `pyIntOfString` (surrounding whitespace
  stripped, optional sign, decimal digits; digit-group underscores are not
  modelled, no claim exercises them).
* `fetch_price_sync` — the two-endpoint fetch (`bot.py`,
  `fetch_price_sync`).  The two HTTP interactions are inputs of the Lean
  function: each is either a raised transport/JSON error (`HttpResult.err`:
  network failure, timeout, undecodable body) or a decoded response with an
  HTTP status code and a JSON body.  `requests.raise_for_status` raises
  exactly when the status code is >= 400.  The JSON body is modelled by the
  fields the source reads: an optional `status` string, an optional integer
  `backOff`, and the `stats[PAIR_KEY]` sub-object when present (a pair
  object with three optional price strings).  An empty pair dict is falsy
  in Python and behaves exactly like an absent one on every path of the
  source, so both are modelled as `none`.
* `tick` — one iteration of the `while True:` loop body of `main`
  (`bot.py`, lines 174-197), acting on the state variable `prev_latest`.
  The float expression `(latest - prev_latest) / prev_latest * 100.0` and
  the literal `0.1` are modelled in exact rational arithmetic (`Rat`).
  Sending the Telegram message is modelled by the `alerted` flag (delivery
  errors are swallowed by `send_message` and change no state, so the
  message content itself is irrelevant to every claim).
-/

/-- Numeric value of a list of decimal digit characters (most significant
first); the empty list denotes 0, matching `Decimal("[.]ddd")` where the
integer part may be empty. -/
def digitsVal (l : List Char) : Nat :=
  List.foldl (fun a c => a * 10 + (c.toNat - 48)) 0 l

/-- Split a character list at the (single) decimal dot: returns the integer
part and the fractional part, or `none` when more than one dot occurs
(which makes `Decimal` raise in the source). -/
def splitOnDot : List Char → Option (List Char × List Char)
  | [] => some ([], [])
  | c :: r =>
    if c = '.' then
      if r.contains '.' then none else some ([], r)
    else
      match splitOnDot r with
      | some (a, b) => some (c :: a, b)
      | none => none

/-- `to_int_price` (`bot.py` lines 63-74): `Decimal(str(x))` then
`to_integral_value(rounding="ROUND_DOWN")`, i.e. truncation toward zero —
the fractional digits are simply dropped from the magnitude.  A `None`
input or an unparsable string raises `ValueError`, modelled as `none`. -/
def to_int_price (x : Option String) : Option Int :=
  match x with
  | none => none
  | some s =>
    let cs := s.toList
    let signAndRest : Int × List Char :=
      match cs with
      | '-' :: r => (-1, r)
      | '+' :: r => (1, r)
      | r => (1, r)
    match splitOnDot signAndRest.2 with
    | none => none
    | some (ip, fp) =>
      if ip.all Char.isDigit && fp.all Char.isDigit &&
          (!ip.isEmpty || !fp.isEmpty) then
        some (signAndRest.1 * (digitsVal ip : Int))
      else none

/-- The union return type `str | int` of `parse_chat_id`. -/
inductive ChatId where
  | str (s : String)
  | num (n : Int)
deriving DecidableEq

/-- Python whitespace as used by `str.strip()` and `int()` (the ASCII
whitespace characters; further unicode whitespace is not modelled, no claim
exercises it). -/
def pyIsSpace (c : Char) : Bool :=
  c = ' ' || c = '\t' || c = '\n' || c = '\r' || c = '\x0b' || c = '\x0c'

/-- Python `value.strip()`: drop leading and trailing whitespace. -/
def pyStrip (s : String) : String :=
  String.mk
    (((s.toList.dropWhile pyIsSpace).reverse.dropWhile pyIsSpace).reverse)

/-- Python `int(v)` on a string: surrounding whitespace is ignored, then an
optional sign and a nonempty run of decimal digits; anything else raises
`ValueError`, modelled as `none` (digit-group underscores are not
modelled). -/
def pyIntOfString (s : String) : Option Int :=
  let cs := (pyStrip s).toList
  let signAndRest : Int × List Char :=
    match cs with
    | '-' :: r => (-1, r)
    | '+' :: r => (1, r)
    | r => (1, r)
  if !signAndRest.2.isEmpty && signAndRest.2.all Char.isDigit then
    some (signAndRest.1 * (digitsVal signAndRest.2 : Int))
  else none

/-- `v.startswith("@")`. -/
def beginsWithAtSign (s : String) : Bool :=
  match s.toList with
  | '@' :: _ => true
  | _ => false

/-- `parse_chat_id` (`bot.py` lines 52-61): an empty (falsy) value is
returned as is; otherwise the value is stripped, a leading `@` keeps it a
string, and otherwise `int(v)` is attempted, falling back to the stripped
string on `ValueError`. -/
def parse_chat_id (value : String) : ChatId :=
  if value = "" then ChatId.str value
  else
    let v := pyStrip value
    if beginsWithAtSign v then ChatId.str v
    else
      match pyIntOfString v with
      | some n => ChatId.num n
      | none => ChatId.str v

/-- The fields of `stats[PAIR_KEY]` that the source reads; upstream prices
arrive as (possibly decimal) numeric strings, a missing field is `none`. -/
structure PairStats where
  latest : Option String
  bestBuy : Option String
  bestSell : Option String
deriving DecidableEq

/-- The fields of the JSON response body that the source reads.  `pair` is
`stats[PAIR_KEY]` when the `stats` object is present and holds a non-empty
object under the pair key (an empty dict is falsy and indistinguishable
from an absent one on every path of `fetch_price_sync`). -/
structure ApiBody where
  status : Option String
  backOff : Option Int
  pair : Option PairStats
deriving DecidableEq

/-- One HTTP interaction as seen by `fetch_price_sync`: either a raised
exception (network error, timeout, undecodable JSON) or a decoded response
with its HTTP status code and body. -/
inductive HttpResult where
  | err
  | resp (code : Nat) (body : ApiBody)
deriving DecidableEq

/-- The backoff extraction `int(data.get("backOff", 0) or 0)`: a missing or
falsy (zero) field yields 0, otherwise the field's integer value. -/
def backoffOf (body : ApiBody) : Int :=
  match body.backOff with
  | none => 0
  | some n => if n = 0 then 0 else n

/-- The return type of `fetch_price_sync`:
`(latest, best_buy, best_sell, backoff_seconds)`. -/
abbrev FetchResult := Option Int × Option Int × Option Int × Int

/-- The price-extraction block shared by both endpoint branches: parse the
three price fields of the pair object; any `ValueError` escapes to the
enclosing `except`. `none` here means an exception was raised. -/
def parsePair (p : PairStats) : Option FetchResult :=
  match to_int_price p.latest, to_int_price p.bestBuy,
      to_int_price p.bestSell with
  | some l, some b, some s => some (some l, some b, some s, 0)
  | _, _, _ => none

/-- The apiv2 branch of `fetch_price_sync` (`bot.py` lines 89-116):
`some r` is an early `return r`, `none` means the branch fell through to
the fallback (either its broad `except` caught an exception, or the pair
key was missing).  `raise_for_status` raises exactly when the HTTP status
code is >= 400.  `statusBadV2` is the body-level check
`data.get("status") and data.get("status") != "ok"`: an absent or empty
(falsy) status string does not trigger it. -/
def statusBadV2 (body : ApiBody) : Bool :=
  match body.status with
  | some s => s ≠ "" && s ≠ "ok"
  | none => false

/-- The apiv2 branch itself; see the comment on `statusBadV2`. -/
def fetchV2 (r : HttpResult) : Option FetchResult :=
  match r with
  | .err => none
  | .resp code body =>
    if 400 ≤ code then none
    else if statusBadV2 body then some (none, none, none, backoffOf body)
    else
      match body.pair with
      | none => none
      | some p => parsePair p

/-- The fallback (v1) branch of `fetch_price_sync` (`bot.py` lines
118-142).  Its broad `except` turns every exception — transport error,
HTTP status >= 400, missing pair key (an explicit `raise ValueError`),
unparsable price — into `(None, None, None, 0)`.  The body-level check is
`data.get("status") != "ok"`, so here an absent status also yields the
backoff return. -/
def fetchV1 (r : HttpResult) : FetchResult :=
  match r with
  | .err => (none, none, none, 0)
  | .resp code body =>
    if 400 ≤ code then (none, none, none, 0)
    else if body.status ≠ some "ok" then (none, none, none, backoffOf body)
    else
      match body.pair with
      | none => (none, none, none, 0)
      | some p =>
        match parsePair p with
        | some res => res
        | none => (none, none, none, 0)

/-- `fetch_price_sync` (`bot.py` lines 77-142), as a function of the two
HTTP interactions it may perform: the apiv2 attempt either returns early or
falls through to the fallback attempt. -/
def fetch_price_sync (v2 v1 : HttpResult) : FetchResult :=
  match fetchV2 v2 with
  | some res => res
  | none => fetchV1 v1

/-- `INTERVAL_SECONDS = 60` (`bot.py` line 14). -/
def INTERVAL_SECONDS : Int := 60

/-- `THRESHOLD_PERCENT = 0.1` (`bot.py` line 15), in exact rational
arithmetic. -/
def THRESHOLD_PERCENT : Rat := 1 / 10

/-- The percentage change `(latest - prev_latest) / prev_latest * 100.0`
(`bot.py` line 184), in exact rational arithmetic. -/
def pct_change (latest prev : Int) : Rat :=
  ((latest : Rat) - (prev : Rat)) / (prev : Rat) * 100

/-- Observable outcome of one iteration of the `while True:` loop in
`main`: the value of `prev_latest` afterwards, whether an alert message was
sent, and how many seconds the iteration sleeps before the next one. -/
structure TickResult where
  prev_latest : Option Int
  alerted : Bool
  sleep : Int
deriving DecidableEq

/-- One iteration of the loop body of `main` (`bot.py` lines 174-197),
given the configured threshold and interval, the current `prev_latest`, and
the tuple returned by `fetch_price_sync`.

* `if backoff and backoff > 0:` — integer truthiness is `backoff ≠ 0` —
  sleeps `backoff` seconds and `continue`s, touching nothing else;
* otherwise, when `latest` is present: with a previous price that is not
  `None` and not 0, an alert is sent exactly when
  `abs(pct_change) >= THRESHOLD_PERCENT`; in every `latest`-present case
  the assignment `prev_latest = latest` then runs;
* the iteration ends with `await asyncio.sleep(INTERVAL_SECONDS)`. -/
def tick (th : Rat) (iv : Int) (st : Option Int)
    (latest _bestBuy _bestSell : Option Int) (backoff : Int) : TickResult :=
  if backoff ≠ 0 ∧ 0 < backoff then ⟨st, false, backoff⟩
  else
    match latest, st with
    | none, _ => ⟨st, false, iv⟩
    | some l, none => ⟨some l, false, iv⟩
    | some l, some p =>
      if p ≠ 0 ∧ th ≤ |pct_change l p| then ⟨some l, true, iv⟩
      else ⟨some l, false, iv⟩

/-- A run of the engine over a list of fetch results, starting from a given
`prev_latest` state, collecting each iteration's outcome. -/
def runTicks (th : Rat) (iv : Int) :
    Option Int → List FetchResult → List TickResult
  | _, [] => []
  | st, (l, bb, bs, k) :: fs =>
    let r := tick th iv st l bb bs k
    r :: runTicks th iv r.prev_latest fs

/-! ## General lemmas about one loop iteration (shared helpers) -/

/-- With a zero backoff, a present `latest` and a present previous price,
the iteration reduces to the threshold test followed by the unconditional
`prev_latest = latest` assignment. -/
theorem tick_success_tracking (th : Rat) (iv : Int) (p l : Int)
    (bb bs : Option Int) :
    tick th iv (some p) (some l) bb bs 0 =
      if p ≠ 0 ∧ th ≤ |pct_change l p| then ⟨some l, true, iv⟩
      else ⟨some l, false, iv⟩ := by
  unfold tick
  rw [if_neg (fun h => h.1 rfl)]

/-- With a zero backoff, a present `latest` and no previous price, the
iteration only records `prev_latest = latest`. -/
theorem tick_success_uninitialized (th : Rat) (iv : Int) (l : Int)
    (bb bs : Option Int) :
    tick th iv none (some l) bb bs 0 = ⟨some l, false, iv⟩ := by
  unfold tick
  rw [if_neg (fun h => h.1 rfl)]

/-- Every `some`-result of the price-extraction block carries all three
prices and a zero backoff. -/
theorem parsePair_shape (p : PairStats) (r : FetchResult)
    (h : parsePair p = some r) : ∃ l b s, r = (some l, some b, some s, 0) := by
  unfold parsePair at h
  split at h
  · injection h with h
    exact ⟨_, _, _, h.symm⟩
  · exact Option.noConfusion h

/-- Every early return of the apiv2 branch either carries all three prices
with a zero backoff, or carries no price at all. -/
theorem fetchV2_shape (v : HttpResult) (r : FetchResult)
    (h : fetchV2 v = some r) :
    (∃ l b s, r = (some l, some b, some s, 0)) ∨
    (∃ k, r = (none, none, none, k)) := by
  cases v with
  | err => exact Option.noConfusion h
  | resp code body =>
    simp only [fetchV2] at h
    split at h
    · exact Option.noConfusion h
    · split at h
      · injection h with h
        exact Or.inr ⟨_, h.symm⟩
      · split at h
        · exact Option.noConfusion h
        · exact Or.inl (parsePair_shape _ _ h)

/-- Every result of the fallback branch either carries all three prices
with a zero backoff, or carries no price at all. -/
theorem fetchV1_shape (v : HttpResult) :
    (∃ l b s, fetchV1 v = (some l, some b, some s, 0)) ∨
    (∃ k, fetchV1 v = (none, none, none, k)) := by
  cases v with
  | err => exact Or.inr ⟨0, rfl⟩
  | resp code body =>
    simp only [fetchV1]
    split
    · exact Or.inr ⟨0, rfl⟩
    · split
      · exact Or.inr ⟨backoffOf body, rfl⟩
      · split
        · exact Or.inr ⟨0, rfl⟩
        · split
          · next res hres =>
              obtain ⟨l, b, s, rfl⟩ := parsePair_shape _ _ hres
              exact Or.inl ⟨l, b, s, rfl⟩
          · exact Or.inr ⟨0, rfl⟩

/-- An HTTP error status on the primary endpoint makes `raise_for_status`
throw, so the apiv2 branch falls through regardless of the body. -/
theorem fetchV2_http_error (code : Nat) (body : ApiBody) (hc : 400 ≤ code) :
    fetchV2 (HttpResult.resp code body) = none := by
  simp only [fetchV2]
  rw [if_pos hc]

/-- An HTTP error status on the fallback endpoint likewise throws, and the
broad `except` returns the all-`None`, zero-backoff tuple. -/
theorem fetchV1_http_error (code : Nat) (body : ApiBody) (hc : 400 ≤ code) :
    fetchV1 (HttpResult.resp code body) = (none, none, none, 0) := by
  simp only [fetchV1]
  rw [if_pos hc]

/-! ## Claim theorems -/

/-- C1, counterexample: baseline 1000000, next quote 1000001 — deviation
0.0001% is strictly below the 0.1% threshold, no alert is sent, yet
`prev_latest` does NOT stay at 1000000: the assignment `prev_latest =
latest` on line 195 of `bot.py` runs on every successful tick. -/
theorem C1_counterexample :
    |pct_change 1000001 1000000| < THRESHOLD_PERCENT ∧
    tick THRESHOLD_PERCENT INTERVAL_SECONDS (some 1000000) (some 1000001)
        (some 1000002) (some 1000000) 0 =
      ⟨some 1000001, false, INTERVAL_SECONDS⟩ ∧
    some (1000001 : Int) ≠ some (1000000 : Int) := by
  refine ⟨?_, ?_, by decide⟩
  · rw [pct_change, THRESHOLD_PERCENT, abs_lt]
    norm_num
  · rw [tick_success_tracking, if_neg]
    rintro ⟨-, hth⟩
    rw [pct_change, THRESHOLD_PERCENT, le_abs] at hth
    norm_num at hth

/-- C1, amended: on a Tracking tick whose deviation is strictly below the
threshold, no alert is sent, but the baseline is not left unchanged: it is
set to the newly observed `q.latest`, so deviation on subsequent ticks is
measured against the last observed price. -/
theorem C1_below_threshold_no_alert_baseline_moves (th : Rat) (iv : Int)
    (p l : Int) (bb bs : Option Int) (h : |pct_change l p| < th) :
    tick th iv (some p) (some l) bb bs 0 = ⟨some l, false, iv⟩ := by
  rw [tick_success_tracking, if_neg]
  rintro ⟨-, hth⟩
  exact absurd hth (not_le.mpr h)

/-- C1, witness: the amended statement at baseline 1000000 and quote
1000500 (deviation 0.05%, below the 0.1% threshold). -/
theorem C1_below_threshold_no_alert_baseline_moves_witness :
    tick THRESHOLD_PERCENT INTERVAL_SECONDS (some 1000000) (some 1000500)
        none none 0 = ⟨some 1000500, false, INTERVAL_SECONDS⟩ :=
  C1_below_threshold_no_alert_baseline_moves THRESHOLD_PERCENT
    INTERVAL_SECONDS 1000000 1000500 none none
    (by rw [pct_change, THRESHOLD_PERCENT, abs_lt]; norm_num)

/-- C2, counterexample: a run starting Uninitialized whose first fetch
outcome is a success sends NO alert on that tick (it only records the
baseline): in `bot.py` the percentage branch requires `prev_latest is not
None`, so the first quote cannot alert. -/
theorem C2_counterexample :
    runTicks THRESHOLD_PERCENT INTERVAL_SECONDS none
        [(some 1157100, some 1157000, some 1157200, 0)] =
      [⟨some 1157100, false, INTERVAL_SECONDS⟩] := by
  simp only [runTicks, tick_success_uninitialized]

/-- C2, amended: the first `Success(q)` observed while the state is
Uninitialized sets the baseline to `q.latest` but sends no alert; alerts
can only start from the second successful tick. -/
theorem C2_first_success_sets_baseline_without_alert (th : Rat) (iv l : Int)
    (bb bs : Option Int) :
    runTicks th iv none [(some l, bb, bs, 0)] = [⟨some l, false, iv⟩] := by
  simp only [runTicks, tick_success_uninitialized]

/-- C3: in a Tracking state with nonzero baseline `p`, a successful quote
`q` alerts exactly when `|q.latest - p| / p * 100 >= threshold`, and the
new baseline is exactly `q.latest` (whether or not the alert fired, the
firing case included). -/
theorem C3_tracking_alert_iff (th : Rat) (iv : Int) (p l : Int)
    (bb bs : Option Int) (hp : p ≠ 0) :
    ((tick th iv (some p) (some l) bb bs 0).alerted = true ↔
      th ≤ |pct_change l p|) ∧
    (tick th iv (some p) (some l) bb bs 0).prev_latest = some l := by
  rw [tick_success_tracking]
  by_cases h : th ≤ |pct_change l p|
  · rw [if_pos ⟨hp, h⟩]
    exact ⟨⟨fun _ => h, fun _ => rfl⟩, rfl⟩
  · rw [if_neg (fun hc => h hc.2)]
    simp [h]

/-- C3, witness: the alert-iff equivalence at baseline 1000000 and quote
1002500 (deviation 0.25%). -/
theorem C3_tracking_alert_iff_witness :
    ((tick THRESHOLD_PERCENT INTERVAL_SECONDS (some 1000000) (some 1002500)
        none none 0).alerted = true ↔
      THRESHOLD_PERCENT ≤ |pct_change 1002500 1000000|) ∧
    (tick THRESHOLD_PERCENT INTERVAL_SECONDS (some 1000000) (some 1002500)
        none none 0).prev_latest = some 1002500 :=
  C3_tracking_alert_iff THRESHOLD_PERCENT INTERVAL_SECONDS 1000000 1002500
    none none (by decide)

/-- C4, counterexample: on an HTTP 429 from both endpoints with a body that
carries `backOff = 120`, `fetch_price_sync` returns backoff 0 — neither the
body value 120 nor a 60-second default: `raise_for_status` throws before
the body is ever inspected. -/
theorem C4_counterexample :
    fetch_price_sync (HttpResult.resp 429 ⟨some ("Failed"), some 120, none⟩)
        (HttpResult.resp 429 ⟨some ("Failed"), some 120, none⟩) =
      (none, none, none, 0) ∧
    (0 : Int) ≠ 120 ∧ (0 : Int) ≠ 60 := by decide

/-- C4, amended: an HTTP "too many requests" response is swallowed by the
broad `except` like any transport error: the primary attempt falls through
and the result is entirely the fallback's; when the fallback also answers
429 the fetch returns `Failure` — no prices and backoff 0, with no
60-second default anywhere. -/
theorem C4_http429_falls_back (b1 b2 : ApiBody) (v1 : HttpResult) :
    fetch_price_sync (HttpResult.resp 429 b1) v1 = fetchV1 v1 ∧
    fetch_price_sync (HttpResult.resp 429 b1) (HttpResult.resp 429 b2) =
      (none, none, none, 0) := by
  constructor
  · unfold fetch_price_sync
    rw [fetchV2_http_error 429 b1 (by norm_num)]
  · unfold fetch_price_sync
    rw [fetchV2_http_error 429 b1 (by norm_num),
      fetchV1_http_error 429 b2 (by norm_num)]

/-- C5: a `RateLimited(b)` outcome with `b > 0` makes the tick sleep `b`
seconds instead of the configured interval, leaves the state untouched and
sends no alert. -/
theorem C5_rate_limited_sleeps_backoff (th : Rat) (iv : Int)
    (st : Option Int) (b : Int) (hb : 0 < b) :
    tick th iv st none none none b = ⟨st, false, b⟩ := by
  unfold tick
  rw [if_pos ⟨by omega, hb⟩]

/-- C5, witness: backoff 90 against the configured 60-second interval, in
the Tracking state with baseline 1157100. -/
theorem C5_rate_limited_sleeps_backoff_witness :
    tick THRESHOLD_PERCENT INTERVAL_SECONDS (some 1157100) none none none 90 =
      ⟨some 1157100, false, 90⟩ :=
  C5_rate_limited_sleeps_backoff THRESHOLD_PERCENT INTERVAL_SECONDS
    (some 1157100) 90 (by decide)

/-- C6: a `Failure` outcome (no quote, no positive backoff) mutates no
state, sends no alert, and sleeps the normal configured interval. -/
theorem C6_failure_is_noop (th : Rat) (iv : Int) (st : Option Int)
    (k : Int) (hk : k ≤ 0) :
    tick th iv st none none none k = ⟨st, false, iv⟩ := by
  unfold tick
  rw [if_neg (fun h => absurd h.2 (not_lt.mpr hk))]

/-- C6, witness: a plain failure tick (backoff 0) in the Tracking state
with baseline 42. -/
theorem C6_failure_is_noop_witness :
    tick THRESHOLD_PERCENT INTERVAL_SECONDS (some 42) none none none 0 =
      ⟨some 42, false, INTERVAL_SECONDS⟩ :=
  C6_failure_is_noop THRESHOLD_PERCENT INTERVAL_SECONDS (some 42) 0
    (by decide)

/-- C7: the price parser truncates decimal numeric strings toward zero:
`"1157100.0000000000"` parses to 1157100 and `"1157100.999"` parses to
1157100, never rounding up. -/
theorem C7_price_truncation :
    to_int_price (some ("1157100.0000000000")) = some 1157100 ∧
    to_int_price (some ("1157100.999")) = some 1157100 := by decide

/-- C8: with a zero baseline the `prev_latest != 0` guard short-circuits
the percentage computation, so the division is never evaluated at a zero
denominator and no alert is sent; the tick merely records the new price. -/
theorem C8_zero_baseline_no_alert (th : Rat) (iv : Int) (l : Int)
    (bb bs : Option Int) :
    tick th iv (some 0) (some l) bb bs 0 = ⟨some l, false, iv⟩ := by
  rw [tick_success_tracking, if_neg (fun h => h.1 rfl)]

/-- C9, counterexample: the input `"@mychannel "` begins with `"@"`, yet
the parser does not return the literal string — it returns the
whitespace-stripped `"@mychannel"`, because `parse_chat_id` strips the
value before the `startswith("@")` test. -/
theorem C9_counterexample :
    parse_chat_id ("@mychannel ") = ChatId.str ("@mychannel") ∧
    ChatId.str ("@mychannel") ≠ ChatId.str ("@mychannel ") := by decide

/-- C9, amended: the parser first strips surrounding whitespace; it returns
the stripped string whenever that begins with `"@"` (which is the literal
input when the input carries no surrounding whitespace), and a numeric
identifier for integer strings: `"-1001234567890"` parses to the integer
-1001234567890 and `"@mychannel"` to the string `"@mychannel"`. -/
theorem C9_destination_parsing :
    (∀ s : String, s ≠ "" → beginsWithAtSign (pyStrip s) = true →
      parse_chat_id s = ChatId.str (pyStrip s)) ∧
    parse_chat_id ("-1001234567890") = ChatId.num (-1001234567890) ∧
    parse_chat_id ("@mychannel") = ChatId.str ("@mychannel") := by
  refine ⟨?_, by decide, by decide⟩
  intro s hs h
  simp only [parse_chat_id]
  rw [if_neg hs, if_pos h]

/-- C9, witness: the general clause of the amended statement evaluated at
`"@mychannel"`. -/
theorem C9_destination_parsing_witness :
    parse_chat_id ("@mychannel") = ChatId.str (pyStrip ("@mychannel")) :=
  C9_destination_parsing.1 ("@mychannel") (by decide) (by decide)

/-- C10, counterexample: a well-formed apiv2 response with
`status = "Failed"` and `backOff = -5` makes `fetch_price_sync` return the
body's backoff unclamped — a negative value — refuting the claimed
non-negativity of the backoff component. -/
theorem C10_counterexample :
    fetch_price_sync (HttpResult.resp 200 ⟨some ("Failed"), some (-5), none⟩)
        HttpResult.err = (none, none, none, -5) ∧
    ¬ (0 : Int) ≤ (-5 : Int) := by decide

/-- C10, amended: `fetch_price_sync` (total in this embedding — every
exception path is caught inside it) always returns one of two shapes:
all three prices present with backoff 0, or all three prices absent with
some integer backoff — prices are never partially present and a successful
quote never carries a nonzero backoff.  (The backoff in the all-absent
shape is whatever integer the body supplied, not necessarily
non-negative.) -/
theorem C10_result_shape (v2 v1 : HttpResult) :
    (∃ l b s, fetch_price_sync v2 v1 = (some l, some b, some s, 0)) ∨
    (∃ k, fetch_price_sync v2 v1 = (none, none, none, k)) := by
  unfold fetch_price_sync
  cases h2 : fetchV2 v2 with
  | none => exact fetchV1_shape v1
  | some r =>
    rcases fetchV2_shape v2 r h2 with ⟨l, b, s, rfl⟩ | ⟨k, rfl⟩
    · exact Or.inl ⟨l, b, s, rfl⟩
    · exact Or.inr ⟨k, rfl⟩
